import Mathlib

/-!
Verification of the server-side core of the `graphql-transport-ws` transport
(repository `ilijaNL/graphql-transport-ws`).

The staged sources contain the ws adapter (`src/use/ws.ts`) and the server
tests; the core `src/server.ts`, `src/common.ts` and `src/utils.ts` are not
staged.  Definitions embedded from `src/use/ws.ts` cite its line numbers;
definitions for the missing files are modelled from the specification and say
so in their doc comment.
-/

namespace GqlWs

/-- The WebSocket subprotocol token advertised during upgrade (spec §6). -/
def GRAPHQL_TRANSPORT_WS_PROTOCOL : String := "graphql-transport-ws"

namespace CloseCode

/-- Close code 4400 BadRequest (spec §4.D table). -/
def BadRequest : Nat := 4400

/-- Close code 4401 Unauthorized (spec §4.D table). -/
def Unauthorized : Nat := 4401

/-- Close code 4403 Forbidden (spec §4.D table). -/
def Forbidden : Nat := 4403

/-- Close code 4408 ConnectionInitialisationTimeout (spec §4.D table). -/
def ConnectionInitialisationTimeout : Nat := 4408

/-- Close code 4409 SubscriberAlreadyExists (spec §4.D table). -/
def SubscriberAlreadyExists : Nat := 4409

/-- Close code 4429 TooManyInitialisationRequests (spec §4.D table). -/
def TooManyInitialisationRequests : Nat := 4429

/-- Close code 4500 InternalServerError (spec §4.D table). -/
def InternalServerError : Nat := 4500

/-- Close code 1001 GoingAway (spec §4.D table). -/
def GoingAway : Nat := 1001

end CloseCode

/-- A close frame: the code and reason handed to the socket `close`. -/
structure CloseFrame where
  code : Nat
  reason : String
deriving DecidableEq

/- ## Subprotocol negotiator (spec §4.B) -/

/-- A JavaScript value as far as `handleProtocols` can observe it: a string, a
non-string scalar, `null`, `undefined`, a plain object, a function, an array,
or a `Set`. -/
inductive JSValue where
  | str (s : String)
  | num (n : Int)
  | nullv
  | undef
  | obj
  | func
  | arr (elems : List JSValue)
  | set (elems : List JSValue)

/-- Whether a `JSValue` is the string `t` (the membership test a JS
`Set.has`/`Array.includes` performs against a string token). -/
def isTokenStr (t : String) : JSValue → Bool
  | .str s => s == t
  | _ => false

/-- Split a client-offered subprotocol string on commas and trim surrounding
whitespace from each piece. -/
def splitTrim (s : String) : List String :=
  (s.splitOn ",").map (fun p => p.trim)

/-- Modelled from the spec: `handleProtocols` lives in `src/server.ts`, which is
not among the staged sources.  Spec §4.B: accepted forms are a set of strings,
a list of strings, or a comma-separated string; the token is matched by exact
string equality (after trimming the comma-split pieces); anything else —
including a single non-string value, an object, a function — is "no match".
`none` is the no-match sentinel (the source returns `false`). -/
def handleProtocols (protocols : JSValue) : Option String :=
  match protocols with
  | .set elems =>
    if elems.any (isTokenStr GRAPHQL_TRANSPORT_WS_PROTOCOL) then
      some GRAPHQL_TRANSPORT_WS_PROTOCOL
    else none
  | .arr elems =>
    if elems.any (isTokenStr GRAPHQL_TRANSPORT_WS_PROTOCOL) then
      some GRAPHQL_TRANSPORT_WS_PROTOCOL
    else none
  | .str s =>
    if (splitTrim s).contains GRAPHQL_TRANSPORT_WS_PROTOCOL then
      some GRAPHQL_TRANSPORT_WS_PROTOCOL
    else none
  | _ => none

/-- The claim's characterisation, written from its words: the input offers the
token iff it is a Set or array containing the exact token as a member, or a
string containing the token as an exact member after splitting on commas and
trimming surrounding whitespace. -/
def offersToken : JSValue → Bool
  | .set elems => elems.any (isTokenStr GRAPHQL_TRANSPORT_WS_PROTOCOL)
  | .arr elems => elems.any (isTokenStr GRAPHQL_TRANSPORT_WS_PROTOCOL)
  | .str s => (splitTrim s).contains GRAPHQL_TRANSPORT_WS_PROTOCOL
  | _ => false

/- ## Subscription registry (spec §4.E) -/

/-- A registry entry: the reservation sentinel inserted before the factory is
invoked, or the installed running producer (spec §3). -/
inductive SubEntry where
  | reservation
  | running
deriving DecidableEq

/-- The per-connection subscriptions registry: operation id to entry. -/
abbrev Subscriptions := List (String × SubEntry)

/-- Remove the entry for `id` from the registry, if present. -/
def eraseId (subs : Subscriptions) (id : String) : Subscriptions :=
  subs.filter (fun p => !(p.1 == id))

/-- Modelled from the spec: `reserve` of the Subscription Registry
(`src/server.ts` is not among the staged sources).  Spec §4.E: atomic insert of
the reservation sentinel; if the id is already present it reports DUPLICATE
(`none` here) without mutating. -/
def reserve (subs : Subscriptions) (id : String) : Option Subscriptions :=
  if (subs.lookup id).isSome then none
  else some ((id, SubEntry.reservation) :: subs)

/-- The duplicate-id close reason mandated by spec §4.E. -/
def duplicateReason (id : String) : String :=
  "Subscriber for " ++ id ++ " already exists"

/-- Modelled from the spec: the orchestrator's duplicate policy
(`src/server.ts` is not among the staged sources).  Spec §4.E: when `reserve`
fails the connection is closed with 4409 and reason
`Subscriber for <id> already exists`; otherwise the reservation is inserted. -/
def handleSubscribeReserve (subs : Subscriptions) (id : String) :
    Subscriptions × Option CloseFrame :=
  match reserve subs id with
  | none => (subs, some ⟨CloseCode.SubscriberAlreadyExists, duplicateReason id⟩)
  | some subs2 => (subs2, none)

/-- An effect the orchestrator requests while handling one operation: call a
producer's `stop`, await its completion, send an outbound protocol message for
an id, or close the connection. -/
inductive OrchAction where
  | callStop (id : String)
  | awaitStopDone (id : String)
  | sendMsg (typ : String) (id : String)
  | closeConn (code : Nat)
deriving DecidableEq

/-- Modelled from the spec: client-sent `complete` handling (`src/server.ts` is
not among the staged sources).  Spec §4.G and §5: drop the reservation or
producer for the id; if a producer existed, invoke its `stop` and await it; do
NOT emit an outbound `complete` (or any other message) in response. -/
def handleClientComplete (subs : Subscriptions) (id : String) :
    Subscriptions × List OrchAction :=
  match subs.lookup id with
  | some SubEntry.running =>
    (eraseId subs id, [OrchAction.callStop id, OrchAction.awaitStopDone id])
  | some SubEntry.reservation => (eraseId subs id, [])
  | none => (subs, [])

/-- How a producer's `start` promise settled. -/
inductive StartOutcome where
  | resolvedVoid
  | resolvedError
  | rejected
deriving DecidableEq

/-- Modelled from the spec: the `start` settlement path of the orchestrator
(`src/server.ts` is not among the staged sources).  Spec §4.G: resolves with
nothing → emit `complete` for the id, drop; resolves with an error payload →
emit `error` for the id, drop; rejects → if the registry still holds the id,
emit a 4500 close; always drop.  The registry update happens on this path
itself, not in the close pipeline (spec §9 open question). -/
def onStartSettled (subs : Subscriptions) (id : String) (o : StartOutcome) :
    Subscriptions × List OrchAction :=
  match o with
  | .resolvedVoid => (eraseId subs id, [OrchAction.sendMsg "complete" id])
  | .resolvedError => (eraseId subs id, [OrchAction.sendMsg "error" id])
  | .rejected =>
    if (subs.lookup id).isSome then
      (eraseId subs id, [OrchAction.closeConn CloseCode.InternalServerError])
    else (eraseId subs id, [])

/- ## The ws adapter (`src/use/ws.ts`) -/

/-- Modelled from the spec: `limitCloseReason` lives in `src/utils.ts`, which is
not among the staged sources.  Spec §6 and §9: a close reason derived from
error text is limited to the WebSocket close-reason byte limit (123 UTF-8
bytes), with the given fallback used when the message does not fit. -/
def limitCloseReason (reason whenTooLong : String) : String :=
  if reason.utf8ByteSize ≤ 123 then reason else whenTooLong

/-- From `src/use/ws.ts`: every internal-error close reason is selected as
`isProd ? 'Internal server error' : limitCloseReason(msg, 'Internal server
error')` (lines 69-74, 93-98 and 148-153; `isProd` is
`process.env.NODE_ENV === 'production'`, line 49). -/
def closeReasonFor (isProd : Bool) (errMessage : String) : String :=
  if isProd then "Internal server error"
  else limitCloseReason errMessage "Internal server error"

/-- From `src/use/ws.ts` lines 85-100: the close frame the per-socket error
handler sends for a socket-level error whose message is `errMessage`. -/
def socketErrorClose (isProd : Bool) (errMessage : String) : CloseFrame :=
  ⟨CloseCode.InternalServerError, closeReasonFor isProd errMessage⟩

/-- From `src/use/ws.ts` lines 136-156: the close frame sent when inbound
message handling throws an error whose message is `errMessage`. -/
def messageErrorClose (isProd : Bool) (errMessage : String) : CloseFrame :=
  ⟨CloseCode.InternalServerError, closeReasonFor isProd errMessage⟩

/-- From `src/use/ws.ts` lines 54-82: the loop body of the socket-server error
handler.  Each client is represented by the exception its `close` raises, if
any (`none` = `close` returned normally).  For every client a close attempt
with `frame` is recorded; a raised exception is retained only when no earlier
one was (`firstErr = firstErr ?? err`).  The retained exception is returned
together with the full attempt list: it is re-thrown only after the loop. -/
def serverErrorLoop (frame : CloseFrame) (clients : List (Option String))
    (firstErr : Option String) : List CloseFrame × Option String :=
  match clients with
  | [] => ([], firstErr)
  | c :: rest =>
    let nextErr := match firstErr with
      | some e => some e
      | none => c
    let tail := serverErrorLoop frame rest nextErr
    (frame :: tail.1, tail.2)

/-- From `src/use/ws.ts` lines 54-82: on a socket-server level error with
message `errMessage`, close every connected client with an
InternalServerError frame and re-throw the first exception a `client.close`
raised, after all clients have been notified. -/
def serverErrorHandler (isProd : Bool) (errMessage : String)
    (clients : List (Option String)) : List CloseFrame × Option String :=
  serverErrorLoop ⟨CloseCode.InternalServerError, closeReasonFor isProd errMessage⟩
    clients none

/-- The first exception raised among the clients' `close` calls, in order. -/
def firstThrown : List (Option String) → Option String
  | [] => none
  | some e :: _ => some e
  | none :: rest => firstThrown rest

/-- A JavaScript number as the keep-alive parameter observes it: finite, NaN,
or an infinity. -/
inductive JSNum where
  | finite (q : Rat)
  | nan
  | posInf
  | negInf
deriving DecidableEq

/-- JavaScript `isFinite`. -/
def jsIsFinite : JSNum → Bool
  | .finite _ => true
  | _ => false

/-- JavaScript `x > 0` (NaN compares false; `+Infinity > 0` is true). -/
def jsGtZero : JSNum → Bool
  | .finite q => decide (0 < q)
  | .posInf => true
  | _ => false

/-- From `src/use/ws.ts` lines 104-125: the recurring ping interval is created
only when `keepAlive > 0 && isFinite(keepAlive)`; its period is `keepAlive`
itself.  `none` models the `null` interval (keep-alive disabled). -/
def mkPingInterval (keepAlive : JSNum) : Option JSNum :=
  if jsGtZero keepAlive && jsIsFinite keepAlive then some keepAlive else none

/-- The ws socket ready states. -/
inductive ReadyState where
  | CONNECTING
  | OPEN
  | CLOSING
  | CLOSED
deriving DecidableEq

/-- Keep-alive driver state for one socket: the socket's ready state, whether
the one-shot pong-wait timeout is armed and live, and whether the socket has
been forcibly terminated. -/
structure KAState where
  readyState : ReadyState
  pongWait : Bool
  terminated : Bool
deriving DecidableEq

/-- Events the keep-alive driver reacts to: the recurring interval tick, a
transport-level pong frame, and the pong-wait timeout firing. -/
inductive KAEvent where
  | tick
  | pongFrame
  | pongWaitFires

/-- Effects of one keep-alive step: arm the one-shot pong-wait timeout with the
given duration, send a transport ping frame, cancel the pong-wait timeout,
forcibly terminate the socket, or gracefully close it (the last never occurs;
it exists to state that termination is not a graceful close). -/
inductive KAAction where
  | armPongWait (duration : JSNum)
  | sendPing
  | clearPongWait
  | terminate
  | closeGraceful (code : Nat) (reason : String)
deriving DecidableEq

/-- From `src/use/ws.ts` lines 106-124: on each interval tick, if the socket is
OPEN, arm `pongWait = setTimeout(() => socket.terminate(), keepAlive)`, listen
once for the transport pong (which clears `pongWait`), and send
`socket.ping()`.  The pong-wait timeout firing calls `socket.terminate()`. -/
def kaStep (keepAlive : JSNum) (st : KAState) : KAEvent → KAState × List KAAction
  | .tick =>
    if st.readyState = ReadyState.OPEN then
      ({ st with pongWait := true }, [KAAction.armPongWait keepAlive, KAAction.sendPing])
    else (st, [])
  | .pongFrame =>
    if st.pongWait then ({ st with pongWait := false }, [KAAction.clearPongWait])
    else (st, [])
  | .pongWaitFires =>
    if st.pongWait then
      ({ st with pongWait := false, terminated := true }, [KAAction.terminate])
    else (st, [])

/-- The two keep-alive timer handles held for one connection in
`src/use/ws.ts` (`pongWait`, `pingInterval`): `true` means the handle is live. -/
structure ConnTimers where
  pongWait : Bool
  pingInterval : Bool
deriving DecidableEq

/-- One step of the socket close handler in `src/use/ws.ts` lines 161-166:
clear a timer, or invoke the orchestrator's `closed` cleanup callback. -/
inductive CloseCleanupStep where
  | clearPongWait
  | clearPingInterval
  | callClosed (code : Nat) (reason : String)
deriving DecidableEq

/-- From `src/use/ws.ts` lines 161-166: the handler ws runs on the socket's
close event (ws emits this event for graceful closes, abrupt terminations and
timeout-induced terminations alike).  It clears `pongWait` and `pingInterval`
when live, then calls `closed(code, reason)`. -/
def onSocketClose (t : ConnTimers) (code : Nat) (reason : String) :
    ConnTimers × List CloseCleanupStep :=
  ( ⟨false, false⟩,
    (if t.pongWait then [CloseCleanupStep.clearPongWait] else []) ++
      (if t.pingInterval then [CloseCleanupStep.clearPingInterval] else []) ++
      [CloseCleanupStep.callClosed code reason] )

/-- How the adapter's `send` promise settles. -/
inductive SendOutcome where
  | resolved
  | rejected (err : String)
deriving DecidableEq

/-- From `src/use/ws.ts` lines 130-134: the send closure handed to the
orchestrator.  `transmitErr` is the error the ws `send` callback reports when a
frame is actually written on an open socket; the Bool records whether
`socket.send` was invoked at all.  When the socket is not OPEN the promise
resolves immediately without transmitting. -/
def adapterSend (readyState : ReadyState) (transmitErr : Option String) :
    SendOutcome × Bool :=
  if readyState ≠ ReadyState.OPEN then (SendOutcome.resolved, false)
  else
    match transmitErr with
    | some e => (SendOutcome.rejected e, true)
    | none => (SendOutcome.resolved, true)

/-- One step of the `dispose` routine returned by `useServer`. -/
inductive DisposeStep where
  | closeClient (code : Nat) (reason : String)
  | removeAllListeners
  | awaitServerClose
deriving DecidableEq

/-- From `src/use/ws.ts` lines 169-179: `dispose` closes every client with
`(1001, 'Going away')`, removes all socket-server listeners, then awaits the
underlying `ws.close`, resolving on success and rejecting with the reported
error otherwise.  `underlying` is the error the socket server's close callback
reports, if any. -/
def dispose (nClients : Nat) (underlying : Option String) :
    List DisposeStep × Except String Unit :=
  ( List.replicate nClients (DisposeStep.closeClient 1001 "Going away") ++
      [DisposeStep.removeAllListeners, DisposeStep.awaitServerClose],
    match underlying with
    | some e => Except.error e
    | none => Except.ok () )

/-- Whether a dispose step is a client close. -/
def isCloseClient : DisposeStep → Bool
  | .closeClient _ _ => true
  | _ => false

/- ## Helper lemmas -/

/-- Erasing an id from the registry leaves no entry for it. -/
theorem lookup_eraseId (subs : Subscriptions) (id : String) :
    (eraseId subs id).lookup id = none := by
  induction subs with
  | nil => rfl
  | cons p rest ih =>
    obtain ⟨k, v⟩ := p
    by_cases h : k = id
    · simpa [eraseId, List.filter_cons, h] using ih
    · have h1 : (k == id) = false := by simp [h]
      have h2 : (id == k) = false := by simp [Ne.symm h]
      simpa [eraseId, List.filter_cons, h1, List.lookup, h2] using ih

/-- The server-error loop closes every client and returns the accumulated
first exception (the first raised one, when the accumulator starts empty). -/
theorem serverErrorLoop_eq (frame : CloseFrame) (clients : List (Option String))
    (firstErr : Option String) :
    serverErrorLoop frame clients firstErr =
      (List.replicate clients.length frame,
        match firstErr with
        | some e => some e
        | none => firstThrown clients) := by
  induction clients generalizing firstErr with
  | nil => cases firstErr <;> rfl
  | cons c rest ih =>
    cases firstErr with
    | some e => simp [serverErrorLoop, ih, List.replicate]
    | none => cases c <;> simp [serverErrorLoop, ih, firstThrown, List.replicate]

/-- Filtering a replicated list by a predicate the element satisfies keeps it. -/
theorem filter_replicate_of_pos {α : Type} (p : α → Bool) (x : α) (h : p x = true)
    (n : Nat) : (List.replicate n x).filter p = List.replicate n x := by
  induction n with
  | zero => rfl
  | succ n ih => simp [List.replicate, List.filter_cons, h, ih]

/- ## Claim theorems -/

/-- Claim C1: a second `subscribe` with an id already in the registry — whether
the entry is a reservation or a running producer — makes the orchestrator
close the connection with 4409 and reason `Subscriber for <id> already
exists`, and the failed reserve does not mutate the registry. -/
theorem duplicate_subscribe_closes_4409 (subs : Subscriptions) (id : String)
    (e : SubEntry) (h : subs.lookup id = some e) :
    handleSubscribeReserve subs id =
      (subs, some ⟨CloseCode.SubscriberAlreadyExists,
        "Subscriber for " ++ id ++ " already exists"⟩) := by
  simp [handleSubscribeReserve, reserve, duplicateReason, h]

/-- Witness for C1: the registry already holds a reservation for `not-unique`;
the second subscribe yields the 4409 close with the exact reason and leaves
the registry unchanged. -/
theorem duplicate_subscribe_closes_4409_witness :
    ([("not-unique", SubEntry.reservation)] : Subscriptions).lookup "not-unique" =
        some SubEntry.reservation
    ∧ handleSubscribeReserve [("not-unique", SubEntry.reservation)] "not-unique" =
        ([("not-unique", SubEntry.reservation)],
          some ⟨CloseCode.SubscriberAlreadyExists,
            "Subscriber for not-unique already exists"⟩) :=
  ⟨rfl, duplicate_subscribe_closes_4409 _ _ SubEntry.reservation rfl⟩

/-- Claim C2: `handleProtocols` returns the canonical token exactly when the
input is a Set, an array, or a comma-separated string containing the exact
token (after split and trim); every other input — non-string scalars, objects,
functions, null, undefined, or collections without the exact token — yields
the no-match sentinel. -/
theorem handleProtocols_token_iff (x : JSValue) :
    handleProtocols x =
      if offersToken x then some GRAPHQL_TRANSPORT_WS_PROTOCOL else none := by
  cases x <;> rfl

/-- Claim C3: keep-alive is driven only when `keepAlive` is positive and
finite (zero and non-finite values create no interval); each tick on an OPEN
socket sends a transport ping and arms the pong-wait timeout with the same
`keepAlive` duration; a transport pong cancels the armed timeout; the timeout
firing forcibly terminates the socket (a terminate action, never a graceful
close). -/
theorem keepalive_driver (keepAlive : JSNum) (st : KAState) :
    ((keepAlive = JSNum.finite 0 ∨ keepAlive = JSNum.nan ∨
        keepAlive = JSNum.posInf ∨ keepAlive = JSNum.negInf) →
      mkPingInterval keepAlive = none)
    ∧ (∀ q : Rat, 0 < q →
        mkPingInterval (JSNum.finite q) = some (JSNum.finite q))
    ∧ (st.readyState = ReadyState.OPEN →
        kaStep keepAlive st KAEvent.tick =
          ({ st with pongWait := true },
            [KAAction.armPongWait keepAlive, KAAction.sendPing]))
    ∧ (st.pongWait = true →
        kaStep keepAlive st KAEvent.pongFrame =
          ({ st with pongWait := false }, [KAAction.clearPongWait]))
    ∧ (st.pongWait = true →
        kaStep keepAlive st KAEvent.pongWaitFires =
          ({ st with pongWait := false, terminated := true }, [KAAction.terminate]))
    ∧ (∀ c r, KAAction.closeGraceful c r ∉ (kaStep keepAlive st KAEvent.pongWaitFires).2) := by
  refine ⟨?_, ?_, ?_, ?_, ?_, ?_⟩
  · rintro (rfl | rfl | rfl | rfl) <;> simp [mkPingInterval, jsGtZero, jsIsFinite]
  · intro q hq; simp [mkPingInterval, jsGtZero, jsIsFinite, hq]
  · intro h; simp [kaStep, h]
  · intro h; simp [kaStep, h]
  · intro h; simp [kaStep, h]
  · intro c r; by_cases h : st.pongWait <;> simp [kaStep, h]

/-- Claim C4: on a client-sent `complete` for a live subscription, the
producer's `stop` is invoked and awaited, the registry entry for the id is
dropped, and no outbound message — in particular no `complete` echo — is
emitted for the id. -/
theorem client_complete_no_echo (subs : Subscriptions) (id : String)
    (h : subs.lookup id = some SubEntry.running) :
    (handleClientComplete subs id).1.lookup id = none
    ∧ (handleClientComplete subs id).2 =
        [OrchAction.callStop id, OrchAction.awaitStopDone id]
    ∧ (∀ t i, OrchAction.sendMsg t i ∉ (handleClientComplete subs id).2) := by
  refine ⟨?_, ?_, ?_⟩ <;> simp [handleClientComplete, h, lookup_eraseId]

/-- Witness for C4: a registry holding a running producer for id `1`; the
client `complete` drops it, calls and awaits `stop`, and emits nothing. -/
theorem client_complete_no_echo_witness :
    ([("1", SubEntry.running)] : Subscriptions).lookup "1" = some SubEntry.running
    ∧ (handleClientComplete [("1", SubEntry.running)] "1").1.lookup "1" = none
    ∧ (handleClientComplete [("1", SubEntry.running)] "1").2 =
        [OrchAction.callStop "1", OrchAction.awaitStopDone "1"] :=
  ⟨rfl,
    (client_complete_no_echo [("1", SubEntry.running)] "1" rfl).1,
    (client_complete_no_echo [("1", SubEntry.running)] "1" rfl).2.1⟩

/-- Claim C5: when a producer's `start` rejects, the registry entry for the id
is removed unconditionally on the settlement path itself — the new registry is
exactly the old one with the id erased, independent of whatever the emitted
close/send actions do — and in fact every settlement outcome drops the id; a
registry holding only that id ends empty. -/
theorem start_rejection_cleanup (subs : Subscriptions) (id : String) :
    (onStartSettled subs id StartOutcome.rejected).1 = eraseId subs id
    ∧ (onStartSettled subs id StartOutcome.rejected).1.lookup id = none
    ∧ (∀ o, (onStartSettled subs id o).1.lookup id = none)
    ∧ (∀ e, (onStartSettled [(id, e)] id StartOutcome.rejected).1 = []) := by
  refine ⟨?_, ?_, ?_, ?_⟩
  · by_cases h : (subs.lookup id).isSome <;> simp [onStartSettled, h]
  · by_cases h : (subs.lookup id).isSome <;> simp [onStartSettled, h, lookup_eraseId]
  · intro o
    cases o <;> [skip; skip; by_cases h : (subs.lookup id).isSome] <;>
      simp [onStartSettled, lookup_eraseId, *]
  · intro e
    by_cases h : (([(id, e)] : Subscriptions).lookup id).isSome <;>
      simp [onStartSettled, h, eraseId, List.filter_cons]

/-- Claim C6: every internal-error close from the ws adapter — socket-level,
server-level, or thrown during inbound message handling — carries code 4500;
in production mode the reason is the literal `Internal server error`
independent of the underlying error message (two runs differing only in the
message produce identical frames), and otherwise the reason is the message
limited to the close-reason byte limit with fallback `Internal server error`. -/
theorem internal_error_close_reasons (m1 m2 m : String) (b : Bool)
    (clients : List (Option String)) :
    socketErrorClose true m1 = socketErrorClose true m2
    ∧ messageErrorClose true m1 = messageErrorClose true m2
    ∧ (serverErrorHandler true m1 clients).1 = (serverErrorHandler true m2 clients).1
    ∧ (socketErrorClose true m).reason = "Internal server error"
    ∧ (messageErrorClose true m).reason = "Internal server error"
    ∧ (socketErrorClose false m).reason = limitCloseReason m "Internal server error"
    ∧ (messageErrorClose false m).reason = limitCloseReason m "Internal server error"
    ∧ (socketErrorClose b m).code = CloseCode.InternalServerError
    ∧ (messageErrorClose b m).code = CloseCode.InternalServerError := by
  refine ⟨rfl, rfl, ?_, rfl, rfl, rfl, rfl, ?_, ?_⟩
  · rw [serverErrorHandler, serverErrorHandler, serverErrorLoop_eq, serverErrorLoop_eq]
    simp [closeReasonFor]
  · cases b <;> rfl
  · cases b <;> rfl

/-- Claim C7: on a socket-server level error, the adapter records a close
attempt with code 4500 (and the prod/dev reason) for every connected client —
the attempt list covers all clients regardless of which `close` calls raise —
and the value re-thrown after the loop is exactly the first exception raised
by a `client.close`. -/
theorem server_error_closes_all_clients (isProd : Bool) (errMessage : String)
    (clients : List (Option String)) :
    (serverErrorHandler isProd errMessage clients).1 =
      List.replicate clients.length
        ⟨CloseCode.InternalServerError, closeReasonFor isProd errMessage⟩
    ∧ (serverErrorHandler isProd errMessage clients).2 = firstThrown clients := by
  rw [serverErrorHandler, serverErrorLoop_eq]
  exact ⟨rfl, rfl⟩

/-- Claim C8: `dispose` closes every live client with `(1001, "Going away")`,
removes all socket-server listeners, and settles only after the underlying
socket-server close (its awaiting is the last step), resolving exactly when
the underlying close reports no error and rejecting with the reported error
otherwise. -/
theorem dispose_graceful_shutdown (nClients : Nat) (underlying : Option String) :
    (dispose nClients underlying).1.filter isCloseClient =
        List.replicate nClients (DisposeStep.closeClient 1001 "Going away")
    ∧ DisposeStep.removeAllListeners ∈ (dispose nClients underlying).1
    ∧ (dispose nClients underlying).1.getLast? = some DisposeStep.awaitServerClose
    ∧ ((dispose nClients underlying).2 = Except.ok () ↔ underlying = none)
    ∧ (∀ e, (dispose nClients underlying).2 = Except.error e ↔ underlying = some e) := by
  refine ⟨?_, ?_, ?_, ?_, ?_⟩
  · simp [dispose, List.filter_append,
      filter_replicate_of_pos isCloseClient (DisposeStep.closeClient 1001 "Going away") rfl,
      isCloseClient, List.filter_cons]
  · simp [dispose]
  · simp [dispose]
  · cases underlying <;> simp [dispose]
  · intro e; cases underlying <;> simp [dispose]

/-- Claim C9: the socket close handler — run by ws on every observed close,
graceful, abrupt or timeout-induced — leaves both keep-alive timers dead, and
its only steps before the final `closed` cleanup callback are timer clears. -/
theorem close_releases_keepalive_timers (t : ConnTimers) (code : Nat)
    (reason : String) :
    (onSocketClose t code reason).1.pongWait = false
    ∧ (onSocketClose t code reason).1.pingInterval = false
    ∧ (onSocketClose t code reason).2.getLast? =
        some (CloseCleanupStep.callClosed code reason)
    ∧ (∀ s ∈ (onSocketClose t code reason).2.dropLast,
        s = CloseCleanupStep.clearPongWait ∨ s = CloseCleanupStep.clearPingInterval) := by
  obtain ⟨pw, pi⟩ := t
  refine ⟨rfl, rfl, ?_, ?_⟩ <;> cases pw <;> cases pi <;>
    simp [onSocketClose, List.dropLast]

/-- Claim C10: the adapter's `send` never rejects because of connection state:
on any non-OPEN socket it resolves immediately without invoking the transport
at all, and a rejection can only arise from a transmission failure on an OPEN
socket. -/
theorem send_never_rejects_on_state (readyState : ReadyState)
    (transmitErr : Option String) :
    (readyState ≠ ReadyState.OPEN →
      adapterSend readyState transmitErr = (SendOutcome.resolved, false))
    ∧ (∀ e, (adapterSend readyState transmitErr).1 = SendOutcome.rejected e →
        readyState = ReadyState.OPEN ∧ transmitErr = some e) := by
  cases readyState <;> cases transmitErr <;> simp [adapterSend]

end GqlWs
